import Mathlib

/-!
Verification of the physics and surface-adhesion core of the
magnet-boots-mayhem 2D platformer.

The numeric code of the game (src/physics.py, src/player.py,
src/platforms.py, src/magnets.py) is shallowly embedded here.
Floating-point scalars are idealised as rationals, except for the
magnetic-field evaluation, whose Euclidean distance needs a real
square root.
-/

set_option autoImplicit false

namespace MagnetBoots

/-- Modelled from the spec: the file constants.py is not in src, so the
orientation string constants (ORIENTATION_FLOOR and friends) are modelled
as an enumeration with one value per constant. -/
inductive Orientation where
  | floor
  | ceiling
  | wallLeft
  | wallRight
deriving DecidableEq

/-- Modelled from the spec: the magnetic-state string constants
(MAGNETIC_STATE_NORMAL, MAGNETIC_STATE_STICKING) from the missing
constants.py, modelled as an enumeration. -/
inductive MagState where
  | normal
  | sticking
deriving DecidableEq

/-- Modelled from the spec: the polarity string constants
(POLARITY_ATTRACT, POLARITY_REPEL) from the missing constants.py,
modelled as an enumeration. -/
inductive Polarity where
  | attract
  | repel
deriving DecidableEq

/-- Modelled from the spec: constants.py is absent from src; the spec only
says there is a gravity constant added each tick.  A representative
positive value is chosen. -/
def GRAVITY : ℚ := 4/5

/-- Modelled from the spec: the max-fall-speed cap from the missing
constants.py; a representative positive value. -/
def MAX_FALL_SPEED : ℚ := 18

/-- Modelled from the spec: the ground-friction multiplicative decay
factor below 1, from the missing constants.py. -/
def FRICTION : ℚ := 4/5

/-- Modelled from the spec: the air-resistance multiplicative decay
factor below 1, from the missing constants.py. -/
def AIR_RESISTANCE : ℚ := 19/20

/-- Modelled from the spec: the player movement speed from the missing
constants.py. -/
def PLAYER_SPEED : ℚ := 5

/-- Modelled from the spec: the jump impulse from the missing
constants.py. -/
def PLAYER_JUMP_STRENGTH : ℚ := 15

/-- Modelled from the spec: the player bounding-box width from the
missing constants.py. -/
def PLAYER_WIDTH : ℚ := 32

/-- Modelled from the spec: the player bounding-box height from the
missing constants.py. -/
def PLAYER_HEIGHT : ℚ := 48

/-- physics.apply_gravity: free-fall gravity, skipped while sticking,
clamped from above by the terminal fall speed. -/
def apply_gravity (velocity_y : ℚ) (magnetic_state : MagState) : ℚ :=
  if magnetic_state = MagState.sticking then 0
  else min (velocity_y + GRAVITY) MAX_FALL_SPEED

/-- physics.apply_friction: multiplicative decay of horizontal velocity,
with distinct ground and air coefficients. -/
def apply_friction (velocity_x : ℚ) (on_ground : Bool) : ℚ :=
  if on_ground then velocity_x * FRICTION else velocity_x * AIR_RESISTANCE

/-- physics.check_rect_collision: strict-inequality AABB overlap test on
(x, y, width, height) rectangles. -/
def check_rect_collision (rect1 rect2 : ℚ × ℚ × ℚ × ℚ) : Bool :=
  let (x1, y1, w1, h1) := rect1
  let (x2, y2, w2, h2) := rect2
  decide (x1 < x2 + w2 ∧ x1 + w1 > x2 ∧ y1 < y2 + h2 ∧ y1 + h1 > y2)

/-- physics.resolve_collision: minimum-penetration resolution with
per-axis directional guards.  The empty collision-side string of the
source is rendered as none. -/
def resolve_collision (player_rect platform_rect : ℚ × ℚ × ℚ × ℚ)
    (velocity : ℚ × ℚ) : (ℚ × ℚ) × (ℚ × ℚ) × Option Orientation :=
  let (px, py, pw, ph) := player_rect
  let (plat_x, plat_y, plat_w, plat_h) := platform_rect
  let (vx, vy) := velocity
  let overlap_left := (px + pw) - plat_x
  let overlap_right := (plat_x + plat_w) - px
  let overlap_top := (py + ph) - plat_y
  let overlap_bottom := (plat_y + plat_h) - py
  let min_overlap :=
    min (min overlap_left overlap_right) (min overlap_top overlap_bottom)
  if min_overlap = overlap_top ∧ vy ≥ 0 then
    ((px, plat_y - ph), (vx, 0), some Orientation.floor)
  else if min_overlap = overlap_bottom ∧ vy ≤ 0 then
    ((px, plat_y + plat_h), (vx, 0), some Orientation.ceiling)
  else if min_overlap = overlap_left ∧ vx ≥ 0 then
    ((plat_x - pw, py), (0, vy), some Orientation.wallRight)
  else if min_overlap = overlap_right ∧ vx ≤ 0 then
    ((plat_x + plat_w, py), (0, vy), some Orientation.wallLeft)
  else
    ((px, py), (vx, vy), none)

/-- physics.get_surface_normal: outward normal of each sticky face. -/
def get_surface_normal (orientation : Orientation) : ℚ × ℚ :=
  match orientation with
  | Orientation.floor => (0, -1)
  | Orientation.ceiling => (0, 1)
  | Orientation.wallLeft => (1, 0)
  | Orientation.wallRight => (-1, 0)

/-- platforms.Platform: a static rectangle with a magnetism flag and a
declared sticky orientation. -/
structure Platform where
  x : ℚ
  y : ℚ
  width : ℚ
  height : ℚ
  is_magnetic : Bool
  orientation : Orientation
deriving DecidableEq

/-- Platform.rect property: the (x, y, width, height) tuple. -/
def Platform.rect (p : Platform) : ℚ × ℚ × ℚ × ℚ :=
  (p.x, p.y, p.width, p.height)

/-- Platform.is_player_on_surface: contact test of the player rect
against this platform's declared sticky face, within a tolerance. -/
def Platform.is_player_on_surface (plat : Platform)
    (player_rect : ℚ × ℚ × ℚ × ℚ) (tolerance : ℚ) : Bool :=
  let (px, py, pw, ph) := player_rect
  match plat.orientation with
  | Orientation.floor =>
      decide (|py + ph - plat.y| ≤ tolerance ∧
        px + pw > plat.x ∧ px < plat.x + plat.width)
  | Orientation.ceiling =>
      decide (|py - (plat.y + plat.height)| ≤ tolerance ∧
        px + pw > plat.x ∧ px < plat.x + plat.width)
  | Orientation.wallLeft =>
      decide (|px + pw - plat.x| ≤ tolerance ∧
        py + ph > plat.y ∧ py < plat.y + plat.height)
  | Orientation.wallRight =>
      decide (|px - (plat.x + plat.width)| ≤ tolerance ∧
        py + ph > plat.y ∧ py < plat.y + plat.height)

/-- player.Player: the mobile body with the magnetic-adhesion state
machine. -/
structure Player where
  x : ℚ
  y : ℚ
  width : ℚ
  height : ℚ
  velocity_x : ℚ
  velocity_y : ℚ
  magnetic_state : MagState
  current_surface : Option Platform
  current_orientation : Orientation
  on_ground : Bool
  facing_right : Bool
  boots_active : Bool
  jump_count : ℕ
  max_jumps : ℕ
deriving DecidableEq

/-- Player.__init__: the freshly constructed player at a starting
position. -/
def Player.init (x y : ℚ) : Player :=
  { x := x, y := y, width := PLAYER_WIDTH, height := PLAYER_HEIGHT,
    velocity_x := 0, velocity_y := 0, magnetic_state := MagState.normal,
    current_surface := none, current_orientation := Orientation.floor,
    on_ground := false, facing_right := true, boots_active := true,
    jump_count := 0, max_jumps := 2 }

/-- Player.rect property. -/
def Player.rect (p : Player) : ℚ × ℚ × ℚ × ℚ :=
  (p.x, p.y, p.width, p.height)

/-- Player.move: horizontal input in free motion or along the adhered
surface; vertical input climbs walls while sticking. -/
def Player.move (p : Player) (horizontal vertical : ℚ) : Player :=
  let p :=
    if horizontal ≠ 0 then { p with facing_right := decide (horizontal > 0) }
    else p
  if p.magnetic_state = MagState.sticking then
    if p.current_orientation = Orientation.floor ∨
        p.current_orientation = Orientation.ceiling then
      { p with velocity_x := horizontal * PLAYER_SPEED }
    else
      { p with velocity_y := vertical * PLAYER_SPEED }
  else
    { p with velocity_x := horizontal * PLAYER_SPEED }

/-- Player.detach_from_surface. -/
def Player.detach_from_surface (p : Player) : Player :=
  { p with
    magnetic_state := MagState.normal
    current_surface := none
    on_ground := false }

/-- Player.stick_to_surface: attach to a magnetic platform, recording the
collision side as the current orientation. -/
def Player.stick_to_surface (p : Player) (platform : Platform)
    (collision_side : Orientation) : Player :=
  if !p.boots_active || !platform.is_magnetic then p
  else
    { p with
      magnetic_state := MagState.sticking
      current_surface := some platform
      current_orientation := collision_side
      velocity_x := 0
      velocity_y := 0
      on_ground := true
      jump_count := 0 }

/-- Player.jump: detach-with-impulse while sticking, otherwise the
ground/double jump gated by the jump budget.  Returns the success flag
together with the new state. -/
def Player.jump (p : Player) : Bool × Player :=
  if p.magnetic_state = MagState.sticking then
    let q := p.detach_from_surface
    let normal := get_surface_normal q.current_orientation
    (true,
      { q with
        velocity_x := q.velocity_x + normal.1 * PLAYER_JUMP_STRENGTH
        velocity_y := q.velocity_y + normal.2 * PLAYER_JUMP_STRENGTH
        jump_count := 1 })
  else if p.on_ground = true ∨ p.jump_count < p.max_jumps then
    (true,
      { p with
        velocity_y := -PLAYER_JUMP_STRENGTH
        on_ground := false
        jump_count := p.jump_count + 1 })
  else
    (false, p)

/-- Player.toggle_magnetic_state: flip the boots flag, detaching when it
goes off while sticking. -/
def Player.toggle_magnetic_state (p : Player) : Player :=
  let p := { p with boots_active := !p.boots_active }
  if p.boots_active = false ∧ p.magnetic_state = MagState.sticking then
    p.detach_from_surface
  else p

/-- Player.apply_gravity method: free-fall gravity unless sticking. -/
def Player.applyGravity (p : Player) : Player :=
  if p.magnetic_state ≠ MagState.sticking then
    { p with velocity_y := apply_gravity p.velocity_y p.magnetic_state }
  else p

/-- Player.apply_friction method. -/
def Player.applyFriction (p : Player) : Player :=
  { p with velocity_x := apply_friction p.velocity_x p.on_ground }

/-- Player.apply_magnetic_force: additive to velocity, a no-op while
sticking. -/
def Player.apply_magnetic_force (p : Player) (force : ℚ × ℚ) : Player :=
  if p.magnetic_state ≠ MagState.sticking then
    { p with
      velocity_x := p.velocity_x + force.1
      velocity_y := p.velocity_y + force.2 }
  else p

/-- The per-platform body of the collision loop in Player.update: resolve
an overlapping platform, then stick or ground accordingly. -/
def Player.handle_platform (p : Player) (platform : Platform) : Player :=
  if check_rect_collision p.rect platform.rect then
    let r := resolve_collision p.rect platform.rect (p.velocity_x, p.velocity_y)
    let p :=
      { p with
        x := r.1.1
        y := r.1.2
        velocity_x := r.2.1.1
        velocity_y := r.2.1.2 }
    match r.2.2 with
    | some side =>
        if platform.is_magnetic && p.boots_active then
          p.stick_to_surface platform side
        else if side = Orientation.floor then
          { p with on_ground := true, jump_count := 0 }
        else p
    | none => p
  else p

/-- The position-integration step of Player.update: x += vx, y += vy. -/
def Player.integrate (p : Player) : Player :=
  { p with x := p.x + p.velocity_x, y := p.y + p.velocity_y }

/-- The ground-reset step of Player.update: on_ground is cleared for the
tick unless the player is sticking. -/
def Player.reset_ground (p : Player) : Player :=
  if p.magnetic_state ≠ MagState.sticking then { p with on_ground := false }
  else p

/-- The final step of Player.update: while sticking, detach when the
recorded surface no longer registers contact within tolerance 10. -/
def Player.contact_check (p : Player) : Player :=
  if p.magnetic_state = MagState.sticking then
    match p.current_surface with
    | some s =>
        if !(s.is_player_on_surface p.rect 10) then p.detach_from_surface
        else p
    | none => p
  else p

/-- Player.update: gravity, friction, integration, ground reset,
collision loop over the platforms, and the per-tick surface-contact
check, in the order of the source. -/
def Player.update (p : Player) (platforms : List Platform) : Player :=
  Player.contact_check
    (platforms.foldl Player.handle_platform
      p.applyGravity.applyFriction.integrate.reset_ground)

/-- Player.reset: return to a starting position with default state. -/
def Player.reset (p : Player) (x y : ℚ) : Player :=
  { p with
    x := x
    y := y
    velocity_x := 0
    velocity_y := 0
    magnetic_state := MagState.normal
    current_surface := none
    current_orientation := Orientation.floor
    on_ground := false
    boots_active := true
    jump_count := 0 }

/-- The states reachable from a freshly constructed player by the public
operations. -/
inductive Reachable : Player → Prop where
  | init (x y : ℚ) : Reachable (Player.init x y)
  | move {p : Player} (horizontal vertical : ℚ) :
      Reachable p → Reachable (p.move horizontal vertical)
  | jump {p : Player} : Reachable p → Reachable p.jump.2
  | toggle {p : Player} : Reachable p → Reachable p.toggle_magnetic_state
  | force {p : Player} (f : ℚ × ℚ) :
      Reachable p → Reachable (p.apply_magnetic_force f)
  | update {p : Player} (platforms : List Platform) :
      Reachable p → Reachable (p.update platforms)
  | reset {p : Player} (x y : ℚ) : Reachable p → Reachable (p.reset x y)

/-- The part of the spec invariant on Player that the code maintains:
a sticking player records a surface, and inactive boots force the
normal state. -/
def PlayerInv (p : Player) : Prop :=
  (p.magnetic_state = MagState.sticking → p.current_surface ≠ none) ∧
  (p.boots_active = false → p.magnetic_state = MagState.normal)

/-- A magnetic platform whose declared sticky orientation is its left
wall, used to exhibit a stick whose recorded orientation differs from
the platform attribute. -/
def bad_platform : Platform :=
  { x := 40, y := -100, width := 50, height := 300, is_magnetic := true,
    orientation := Orientation.wallLeft }

/-- The player state after pushing a fresh player rightwards into the
left face of bad_platform for one tick. -/
def bad_player : Player :=
  ((Player.init 0 0).apply_magnetic_force (10, 0)).update [bad_platform]

/-- One step of free-fall gravity in the Normal state, the function the
gravity-clamp claim iterates. -/
def free_fall_step (velocity_y : ℚ) : ℚ :=
  apply_gravity velocity_y MagState.normal

/-- platforms.MovingPlatform: a platform ping-ponging between a start and
an end waypoint, driven by a progress scalar and a direction sign. -/
structure MovingPlatform where
  x : ℚ
  y : ℚ
  width : ℚ
  height : ℚ
  is_magnetic : Bool
  orientation : Orientation
  start_x : ℚ
  start_y : ℚ
  end_x : ℚ
  end_y : ℚ
  speed : ℚ
  direction : ℚ
  progress : ℚ
deriving DecidableEq

/-- MovingPlatform.__init__: the constructor records the initial position
as the start waypoint and begins at progress 0 moving towards the end. -/
def MovingPlatform.init (x y width height end_x end_y speed : ℚ)
    (is_magnetic : Bool) (orientation : Orientation) : MovingPlatform :=
  { x := x, y := y, width := width, height := height,
    is_magnetic := is_magnetic, orientation := orientation,
    start_x := x, start_y := y, end_x := end_x, end_y := end_y,
    speed := speed, direction := 1, progress := 0 }

/-- MovingPlatform.update: advance the progress scalar, clamp it into
the unit interval flipping the direction at the endpoints, and place the
platform by linear interpolation. -/
def MovingPlatform.update (mp : MovingPlatform) : MovingPlatform :=
  let progress := mp.progress + mp.speed * mp.direction * (1/100)
  let pd : ℚ × ℚ :=
    if progress ≥ 1 then (1, -1)
    else if progress ≤ 0 then (0, 1)
    else (progress, mp.direction)
  { mp with
    progress := pd.1
    direction := pd.2
    x := mp.start_x + (mp.end_x - mp.start_x) * pd.1
    y := mp.start_y + (mp.end_y - mp.start_y) * pd.1 }

/-- The flat key-value map written by Platform.to_dict.  Keys that
from_dict reads with a default are optional. -/
structure PlatformDict where
  x : ℚ
  y : ℚ
  width : ℚ
  height : ℚ
  is_magnetic : Option Bool
  orientation : Option Orientation
deriving DecidableEq

/-- Platform.to_dict. -/
def Platform.to_dict (p : Platform) : PlatformDict :=
  { x := p.x, y := p.y, width := p.width, height := p.height,
    is_magnetic := some p.is_magnetic, orientation := some p.orientation }

/-- Platform.from_dict: missing optional keys fall back to the documented
defaults. -/
def Platform.from_dict (data : PlatformDict) : Platform :=
  { x := data.x, y := data.y, width := data.width, height := data.height,
    is_magnetic := data.is_magnetic.getD false,
    orientation := data.orientation.getD Orientation.floor }

/-- The flat key-value map written by MovingPlatform.to_dict.  The
progress scalar and the direction sign have no key. -/
structure MovingPlatformDict where
  x : ℚ
  y : ℚ
  width : ℚ
  height : ℚ
  is_magnetic : Option Bool
  orientation : Option Orientation
  end_x : ℚ
  end_y : ℚ
  speed : Option ℚ
  moving : Bool
deriving DecidableEq

/-- MovingPlatform.to_dict: the inherited platform keys hold the current
(not the start) position; end waypoints and speed are added. -/
def MovingPlatform.to_dict (mp : MovingPlatform) : MovingPlatformDict :=
  { x := mp.x, y := mp.y, width := mp.width, height := mp.height,
    is_magnetic := some mp.is_magnetic, orientation := some mp.orientation,
    end_x := mp.end_x, end_y := mp.end_y, speed := some mp.speed,
    moving := true }

/-- MovingPlatform.from_dict: rebuilds through the constructor, so the
progress scalar restarts at 0 and the direction at 1. -/
def MovingPlatform.from_dict (data : MovingPlatformDict) : MovingPlatform :=
  MovingPlatform.init data.x data.y data.width data.height
    data.end_x data.end_y (data.speed.getD 2)
    (data.is_magnetic.getD false) (data.orientation.getD Orientation.floor)

/-- Modelled from the spec: the default magnet range from the missing
constants.py. -/
noncomputable def MAGNET_DEFAULT_RANGE : ℝ := 150

/-- Modelled from the spec: the default magnet strength from the missing
constants.py. -/
noncomputable def MAGNET_DEFAULT_STRENGTH : ℝ := 1/2

/-- physics.calculate_distance: Euclidean distance between two points. -/
noncomputable def calculate_distance (pos1 pos2 : ℝ × ℝ) : ℝ :=
  Real.sqrt ((pos2.1 - pos1.1) * (pos2.1 - pos1.1) +
    (pos2.2 - pos1.2) * (pos2.2 - pos1.2))

/-- physics.calculate_direction: normalised direction vector, or zero for
coinciding points. -/
noncomputable def calculate_direction (fromPos toPos : ℝ × ℝ) : ℝ × ℝ :=
  let dx := toPos.1 - fromPos.1
  let dy := toPos.2 - fromPos.2
  let distance := calculate_distance fromPos toPos
  if distance = 0 then (0, 0)
  else (dx / distance, dy / distance)

/-- physics.calculate_magnetic_force: range-limited quadratic-falloff
force along the direction to the magnet, reversed for repel polarity. -/
noncomputable def calculate_magnetic_force (object_pos magnet_pos : ℝ × ℝ)
    (magnet_range magnet_strength : ℝ) (polarity : Polarity) : ℝ × ℝ :=
  let distance := calculate_distance object_pos magnet_pos
  if distance > magnet_range ∨ distance = 0 then (0, 0)
  else
    let force_magnitude := magnet_strength * (1 - distance / magnet_range) ^ 2
    let direction := calculate_direction object_pos magnet_pos
    let direction :=
      if polarity = Polarity.repel then (-direction.1, -direction.2)
      else direction
    (direction.1 * force_magnitude, direction.2 * force_magnitude)

/-- magnets.Magnet: a magnetic zone with a centre, polarity, range,
strength, visual extent, and an active flag. -/
structure Magnet where
  x : ℝ
  y : ℝ
  polarity : Polarity
  range : ℝ
  strength : ℝ
  width : ℝ
  height : ℝ
  active : Bool

/-- Magnet.position property: the centre point. -/
def Magnet.position (m : Magnet) : ℝ × ℝ := (m.x, m.y)

/-- Magnet.get_force_on_object: zero for an inactive magnet, otherwise
the field force at the queried point. -/
noncomputable def Magnet.get_force_on_object (m : Magnet)
    (object_pos : ℝ × ℝ) : ℝ × ℝ :=
  if !m.active then (0, 0)
  else calculate_magnetic_force object_pos m.position m.range m.strength
    m.polarity

/-- The flat key-value map written by Magnet.to_dict. -/
structure MagnetDict where
  x : ℝ
  y : ℝ
  polarity : Option Polarity
  range : Option ℝ
  strength : Option ℝ
  width : Option ℝ
  height : Option ℝ
  active : Option Bool

/-- Magnet.to_dict. -/
def Magnet.to_dict (m : Magnet) : MagnetDict :=
  { x := m.x, y := m.y, polarity := some m.polarity, range := some m.range,
    strength := some m.strength, width := some m.width,
    height := some m.height, active := some m.active }

/-- Magnet.from_dict: missing optional keys fall back to the documented
defaults; the active flag is restored after construction. -/
noncomputable def Magnet.from_dict (data : MagnetDict) : Magnet :=
  { x := data.x, y := data.y,
    polarity := data.polarity.getD Polarity.attract,
    range := data.range.getD MAGNET_DEFAULT_RANGE,
    strength := data.strength.getD MAGNET_DEFAULT_STRENGTH,
    width := data.width.getD 32, height := data.height.getD 32,
    active := data.active.getD true }

/-- The field force the spec describes, written from its words: zero when
the field is inactive, out of range, or at the singular centre; otherwise
the unit vector from the query point toward the centre (negated for
repel) scaled by the quadratic-falloff magnitude. -/
noncomputable def force_at (m : Magnet) (point : ℝ × ℝ) : ℝ × ℝ :=
  let d := Real.sqrt ((m.x - point.1) ^ 2 + (m.y - point.2) ^ 2)
  if m.active = false ∨ d > m.range ∨ d = 0 then (0, 0)
  else
    let magnitude := m.strength * (1 - d / m.range) ^ 2
    let unit := ((m.x - point.1) / d, (m.y - point.2) / d)
    let dir :=
      if m.polarity = Polarity.repel then (-unit.1, -unit.2) else unit
    (dir.1 * magnitude, dir.2 * magnitude)

/-- A moving platform half-way through its path: one update of a fresh
platform with speed 50 puts the progress scalar at 1/2. -/
def mp_probe : MovingPlatform :=
  (MovingPlatform.init 0 0 10 10 100 0 50 false Orientation.floor).update

set_option maxHeartbeats 1600000 in
/-- Claim C1: for overlapping rectangles and any velocity,
resolve_collision computes the four penetration depths, and a returned
side means the corresponding depth is the minimum, its directional guard
passes, the position is snapped to that boundary and the velocity
component along that axis is zeroed; the side is empty exactly when no
minimum-depth axis passes its guard, in which case position and velocity
are returned unchanged. -/
theorem resolve_collision_minimum_penetration
    (px py pw ph plat_x plat_y plat_w plat_h vx vy : ℚ)
    (_hover : check_rect_collision (px, py, pw, ph)
      (plat_x, plat_y, plat_w, plat_h) = true) :
    let overlap_left := (px + pw) - plat_x
    let overlap_right := (plat_x + plat_w) - px
    let overlap_top := (py + ph) - plat_y
    let overlap_bottom := (plat_y + plat_h) - py
    let m := min (min overlap_left overlap_right)
      (min overlap_top overlap_bottom)
    let r := resolve_collision (px, py, pw, ph)
      (plat_x, plat_y, plat_w, plat_h) (vx, vy)
    (r.2.2 = some Orientation.floor →
      m = overlap_top ∧ 0 ≤ vy ∧ r.1 = (px, plat_y - ph) ∧ r.2.1 = (vx, 0)) ∧
    (r.2.2 = some Orientation.ceiling →
      m = overlap_bottom ∧ vy ≤ 0 ∧ r.1 = (px, plat_y + plat_h) ∧
        r.2.1 = (vx, 0)) ∧
    (r.2.2 = some Orientation.wallRight →
      m = overlap_left ∧ 0 ≤ vx ∧ r.1 = (plat_x - pw, py) ∧ r.2.1 = (0, vy)) ∧
    (r.2.2 = some Orientation.wallLeft →
      m = overlap_right ∧ vx ≤ 0 ∧ r.1 = (plat_x + plat_w, py) ∧
        r.2.1 = (0, vy)) ∧
    (r.2.2 = none ↔
      ¬(m = overlap_top ∧ 0 ≤ vy) ∧ ¬(m = overlap_bottom ∧ vy ≤ 0) ∧
      ¬(m = overlap_left ∧ 0 ≤ vx) ∧ ¬(m = overlap_right ∧ vx ≤ 0)) ∧
    (r.2.2 = none → r.1 = (px, py) ∧ r.2.1 = (vx, vy)) := by
  clear _hover
  simp only [resolve_collision]
  split_ifs with h1 h2 h3 h4 <;> simp_all [ge_iff_le]

/-- Witness for claim C1: the landing scenario of the spec, player rect
(50, 90, 20, 20) falling with velocity (0, 5) onto platform
(0, 100, 200, 20), resolves to the floor side at y = 80 with the fall
stopped. -/
theorem resolve_collision_minimum_penetration_witness :
    check_rect_collision (50, 90, 20, 20) (0, 100, 200, 20) = true ∧
    (resolve_collision (50, 90, 20, 20) (0, 100, 200, 20) (0, 5)).2.2 =
      some Orientation.floor ∧
    (resolve_collision (50, 90, 20, 20) (0, 100, 200, 20) (0, 5)).1 =
      (50, 80) ∧
    (resolve_collision (50, 90, 20, 20) (0, 100, 200, 20) (0, 5)).2.1 =
      (0, 0) := by
  have hov : check_rect_collision (50, 90, 20, 20) (0, 100, 200, 20) = true := by
    simp [check_rect_collision]
    norm_num
  have hside : (resolve_collision (50, 90, 20, 20) (0, 100, 200, 20)
      (0, 5)).2.2 = some Orientation.floor := by
    simp [resolve_collision, min_def]
    norm_num
  have h := resolve_collision_minimum_penetration 50 90 20 20 0 100 200 20 0 5
    hov
  simp only [] at h
  have h2 := h.1 hside
  refine ⟨hov, hside, ?_, ?_⟩
  · rw [h2.2.2.1]
    norm_num
  · exact h2.2.2.2

/-- Claim C4: whenever resolve_collision returns a non-empty collision
side for overlapping rectangles, the snapped body rectangle no longer
overlaps the platform under the strict-inequality AABB test. -/
theorem resolve_collision_separates
    (px py pw ph plat_x plat_y plat_w plat_h vx vy : ℚ)
    (_hover : check_rect_collision (px, py, pw, ph)
      (plat_x, plat_y, plat_w, plat_h) = true)
    (hside : (resolve_collision (px, py, pw, ph)
      (plat_x, plat_y, plat_w, plat_h) (vx, vy)).2.2 ≠ none) :
    check_rect_collision
      ((resolve_collision (px, py, pw, ph)
          (plat_x, plat_y, plat_w, plat_h) (vx, vy)).1.1,
        (resolve_collision (px, py, pw, ph)
          (plat_x, plat_y, plat_w, plat_h) (vx, vy)).1.2, pw, ph)
      (plat_x, plat_y, plat_w, plat_h) = false := by
  clear _hover
  simp only [resolve_collision] at hside ⊢
  split_ifs at hside ⊢ with h1 h2 h3 h4
  · simp only [check_rect_collision]
    simp only [decide_eq_false_iff_not]
    rintro ⟨-, -, -, hc⟩
    linarith
  · simp only [check_rect_collision]
    simp only [decide_eq_false_iff_not]
    rintro ⟨-, -, hc, -⟩
    linarith
  · simp only [check_rect_collision]
    simp only [decide_eq_false_iff_not]
    rintro ⟨-, hc, -, -⟩
    linarith
  · simp only [check_rect_collision]
    simp only [decide_eq_false_iff_not]
    rintro ⟨hc, -, -, -⟩
    linarith
  · exact absurd rfl hside

/-- Witness for claim C4: after resolving the landing scenario, the
snapped player rect no longer overlaps the platform. -/
theorem resolve_collision_separates_witness :
    check_rect_collision (50, 90, 20, 20) (0, 100, 200, 20) = true ∧
    (resolve_collision (50, 90, 20, 20) (0, 100, 200, 20) (0, 5)).2.2 ≠
      none ∧
    check_rect_collision
      ((resolve_collision (50, 90, 20, 20) (0, 100, 200, 20) (0, 5)).1.1,
        (resolve_collision (50, 90, 20, 20) (0, 100, 200, 20) (0, 5)).1.2,
        20, 20)
      (0, 100, 200, 20) = false := by
  have hov : check_rect_collision (50, 90, 20, 20) (0, 100, 200, 20) = true := by
    simp [check_rect_collision]
    norm_num
  have hfl : (resolve_collision (50, 90, 20, 20) (0, 100, 200, 20)
      (0, 5)).2.2 = some Orientation.floor := by
    simp [resolve_collision, min_def]
    norm_num
  have hside : (resolve_collision (50, 90, 20, 20) (0, 100, 200, 20)
      (0, 5)).2.2 ≠ none := by
    rw [hfl]
    simp
  exact ⟨hov, hside,
    resolve_collision_separates 50 90 20 20 0 100 200 20 0 5 hov hside⟩

/-- Claim C10: resolve_collision touches only one axis: a floor or
ceiling side leaves x and vx as given, a wall side leaves y and vy as
given, and an empty side leaves position and velocity both as given. -/
theorem resolve_collision_single_axis
    (px py pw ph plat_x plat_y plat_w plat_h vx vy : ℚ) :
    ((resolve_collision (px, py, pw, ph)
        (plat_x, plat_y, plat_w, plat_h) (vx, vy)).2.2 =
          some Orientation.floor ∨
      (resolve_collision (px, py, pw, ph)
        (plat_x, plat_y, plat_w, plat_h) (vx, vy)).2.2 =
          some Orientation.ceiling →
      (resolve_collision (px, py, pw, ph)
        (plat_x, plat_y, plat_w, plat_h) (vx, vy)).1.1 = px ∧
      (resolve_collision (px, py, pw, ph)
        (plat_x, plat_y, plat_w, plat_h) (vx, vy)).2.1.1 = vx) ∧
    ((resolve_collision (px, py, pw, ph)
        (plat_x, plat_y, plat_w, plat_h) (vx, vy)).2.2 =
          some Orientation.wallLeft ∨
      (resolve_collision (px, py, pw, ph)
        (plat_x, plat_y, plat_w, plat_h) (vx, vy)).2.2 =
          some Orientation.wallRight →
      (resolve_collision (px, py, pw, ph)
        (plat_x, plat_y, plat_w, plat_h) (vx, vy)).1.2 = py ∧
      (resolve_collision (px, py, pw, ph)
        (plat_x, plat_y, plat_w, plat_h) (vx, vy)).2.1.2 = vy) ∧
    ((resolve_collision (px, py, pw, ph)
        (plat_x, plat_y, plat_w, plat_h) (vx, vy)).2.2 = none →
      (resolve_collision (px, py, pw, ph)
        (plat_x, plat_y, plat_w, plat_h) (vx, vy)).1 = (px, py) ∧
      (resolve_collision (px, py, pw, ph)
        (plat_x, plat_y, plat_w, plat_h) (vx, vy)).2.1 = (vx, vy)) := by
  simp only [resolve_collision]
  split_ifs <;> simp

/-- Witness for claim C10: in the landing scenario the floor resolution
leaves the horizontal position and velocity untouched. -/
theorem resolve_collision_single_axis_witness :
    (resolve_collision (50, 90, 20, 20) (0, 100, 200, 20) (0, 5)).2.2 =
      some Orientation.floor ∧
    (resolve_collision (50, 90, 20, 20) (0, 100, 200, 20) (0, 5)).1.1 = 50 ∧
    (resolve_collision (50, 90, 20, 20) (0, 100, 200, 20) (0, 5)).2.1.1 =
      0 := by
  have hside : (resolve_collision (50, 90, 20, 20) (0, 100, 200, 20)
      (0, 5)).2.2 = some Orientation.floor := by
    simp [resolve_collision, min_def]
    norm_num
  have h := resolve_collision_single_axis 50 90 20 20 0 100 200 20 0 5
  exact ⟨hside, h.1 (Or.inl hside)⟩

/-- Counterexample to claim C8 as stated: from the starting velocity
-100 (above the cap in magnitude), one application of free-fall gravity
still leaves a velocity of magnitude 496/5, well above the cap, because
the clamp only bounds the downward side. -/
theorem gravity_clamp_unbounded_start :
    MAX_FALL_SPEED < |free_fall_step^[1] (-100)| := by
  have hval : free_fall_step^[1] (-100 : ℚ) = -496/5 := by
    rw [Function.iterate_one]
    simp [free_fall_step, apply_gravity, GRAVITY, MAX_FALL_SPEED, min_def]
    norm_num
  rw [hval, abs_of_nonpos (by norm_num)]
  norm_num [MAX_FALL_SPEED]

/-- Claim C8 (amended): from any starting velocity already within the
fall-speed cap, any number of applications of free-fall gravity keeps
the velocity within the cap. -/
theorem gravity_clamp_invariant (vy : ℚ) (h : |vy| ≤ MAX_FALL_SPEED) (n : ℕ) :
    |free_fall_step^[n] vy| ≤ MAX_FALL_SPEED := by
  induction n generalizing vy with
  | zero => simpa using h
  | succ n ih =>
      rw [Function.iterate_succ_apply]
      apply ih
      have hstep : free_fall_step vy = min (vy + GRAVITY) MAX_FALL_SPEED := by
        simp [free_fall_step, apply_gravity]
      rw [hstep, abs_le]
      rw [abs_le] at h
      constructor
      · apply le_min
        · have := h.1
          norm_num [GRAVITY, MAX_FALL_SPEED] at this ⊢
          linarith
        · norm_num [MAX_FALL_SPEED]
      · exact le_trans (min_le_right _ _) le_rfl

/-- Witness for claim C8 (amended): starting at rest, three ticks of
free-fall gravity stay within the cap. -/
theorem gravity_clamp_invariant_witness :
    |(0 : ℚ)| ≤ MAX_FALL_SPEED ∧ |free_fall_step^[3] 0| ≤ MAX_FALL_SPEED := by
  have h0 : |(0 : ℚ)| ≤ MAX_FALL_SPEED := by norm_num [MAX_FALL_SPEED]
  exact ⟨h0, gravity_clamp_invariant 0 h0 3⟩

/-- Claim C9: after any update of any moving platform the progress
scalar lies in the unit interval, and the direction is -1 whenever the
progress lands on 1 and +1 whenever it lands on 0. -/
theorem moving_platform_progress_invariant (mp : MovingPlatform) :
    0 ≤ mp.update.progress ∧ mp.update.progress ≤ 1 ∧
    (mp.update.progress = 1 → mp.update.direction = -1) ∧
    (mp.update.progress = 0 → mp.update.direction = 1) := by
  simp only [MovingPlatform.update]
  split_ifs with h1 h2
  · simp
  · simp
  · push_neg at h1 h2
    simp only []
    exact ⟨by linarith, by linarith, by intro hh; linarith,
      by intro hh; linarith⟩

/-- Witness for claim C9: a platform whose first update overshoots the
end waypoint lands on progress 1 with the direction flipped to -1. -/
theorem moving_platform_progress_invariant_witness :
    ((MovingPlatform.init 0 0 10 10 100 0 200 false
      Orientation.floor).update).progress = 1 ∧
    ((MovingPlatform.init 0 0 10 10 100 0 200 false
      Orientation.floor).update).direction = -1 := by
  have hp : ((MovingPlatform.init 0 0 10 10 100 0 200 false
      Orientation.floor).update).progress = 1 := by
    simp [MovingPlatform.update, MovingPlatform.init]
    norm_num
  have h := moving_platform_progress_invariant
    (MovingPlatform.init 0 0 10 10 100 0 200 false Orientation.floor)
  exact ⟨hp, h.2.2.1 hp⟩

/-- Claim C7 (amended): Platform and Magnet serialisation round-trips
are lossless on every attribute; the MovingPlatform round-trip preserves
the current rect, magnetism, orientation, end waypoints and speed, but
rebases the start waypoint to the serialised current position and resets
the progress scalar to 0 and the direction to +1. -/
theorem serialization_roundtrip :
    (∀ p : Platform, Platform.from_dict (Platform.to_dict p) = p) ∧
    (∀ m : Magnet, Magnet.from_dict (Magnet.to_dict m) = m) ∧
    (∀ mp : MovingPlatform,
      (MovingPlatform.from_dict (MovingPlatform.to_dict mp)).x = mp.x ∧
      (MovingPlatform.from_dict (MovingPlatform.to_dict mp)).y = mp.y ∧
      (MovingPlatform.from_dict (MovingPlatform.to_dict mp)).width =
        mp.width ∧
      (MovingPlatform.from_dict (MovingPlatform.to_dict mp)).height =
        mp.height ∧
      (MovingPlatform.from_dict (MovingPlatform.to_dict mp)).is_magnetic =
        mp.is_magnetic ∧
      (MovingPlatform.from_dict (MovingPlatform.to_dict mp)).orientation =
        mp.orientation ∧
      (MovingPlatform.from_dict (MovingPlatform.to_dict mp)).end_x =
        mp.end_x ∧
      (MovingPlatform.from_dict (MovingPlatform.to_dict mp)).end_y =
        mp.end_y ∧
      (MovingPlatform.from_dict (MovingPlatform.to_dict mp)).speed =
        mp.speed ∧
      (MovingPlatform.from_dict (MovingPlatform.to_dict mp)).start_x =
        mp.x ∧
      (MovingPlatform.from_dict (MovingPlatform.to_dict mp)).start_y =
        mp.y ∧
      (MovingPlatform.from_dict (MovingPlatform.to_dict mp)).progress = 0 ∧
      (MovingPlatform.from_dict (MovingPlatform.to_dict mp)).direction =
        1) := by
  refine ⟨fun p => ?_, fun m => ?_, fun mp => ?_⟩
  · cases p
    simp [Platform.to_dict, Platform.from_dict]
  · cases m
    simp [Magnet.to_dict, Magnet.from_dict]
  · simp [MovingPlatform.to_dict, MovingPlatform.from_dict,
      MovingPlatform.init]

/-- Counterexample to claim C7 as stated: serialising and reconstructing
a moving platform in mid-path does not restore its progress scalar (the
dictionary has no key for it), so the round-trip is not lossless. -/
theorem moving_platform_roundtrip_loses_progress :
    (MovingPlatform.from_dict mp_probe.to_dict).progress ≠
      mp_probe.progress := by
  simp [mp_probe, MovingPlatform.init, MovingPlatform.update,
    MovingPlatform.to_dict, MovingPlatform.from_dict]
  norm_num

/-- Claim C3: for every magnet and query point, the force returned by
Magnet.get_force_on_object agrees with the force the spec describes:
zero when inactive, out of range, or at the centre, and otherwise the
unit vector toward the centre (negated for repel) scaled by
strength times the squared falloff factor. -/
theorem magnet_force_matches_spec (m : Magnet) (point : ℝ × ℝ) :
    m.get_force_on_object point = force_at m point := by
  simp only [Magnet.get_force_on_object, force_at, calculate_magnetic_force,
    calculate_direction, calculate_distance, Magnet.position]
  have hd : (m.x - point.1) * (m.x - point.1) +
      (m.y - point.2) * (m.y - point.2) =
      (m.x - point.1) ^ 2 + (m.y - point.2) ^ 2 := by ring
  simp only [hd]
  cases ha : m.active with
  | false => simp
  | true =>
      simp only [Bool.not_true, Bool.false_eq_true, if_false,
        Bool.true_eq_false, false_or]
      by_cases h1 : Real.sqrt ((m.x - point.1) ^ 2 + (m.y - point.2) ^ 2) >
          m.range ∨
          Real.sqrt ((m.x - point.1) ^ 2 + (m.y - point.2) ^ 2) = 0
      · rw [if_pos h1, if_pos h1]
      · rw [if_neg h1, if_neg h1]
        push_neg at h1
        obtain ⟨-, h0⟩ := h1
        simp only [if_neg h0]

/-- The contact check never changes the vertical velocity. -/
theorem velocity_y_contact_check (q : Player) :
    q.contact_check.velocity_y = q.velocity_y := by
  unfold Player.contact_check
  split_ifs with h1
  · cases hs : q.current_surface with
    | none => rfl
    | some s =>
        dsimp only
        split_ifs <;> rfl
  · rfl

/-- Claim C5: a Sticking player's vertical velocity is unchanged by one
update with no platforms: gravity is suppressed while sticking. -/
theorem sticking_update_preserves_vy (p : Player)
    (h : p.magnetic_state = MagState.sticking) :
    (p.update []).velocity_y = p.velocity_y := by
  have hg : p.applyGravity = p := by
    simp [Player.applyGravity, h]
  unfold Player.update
  rw [List.foldl_nil, hg, velocity_y_contact_check]
  have hvy : p.applyFriction.integrate.reset_ground.velocity_y =
      p.velocity_y := by
    simp [Player.applyFriction, Player.integrate, Player.reset_ground, h]
  exact hvy

/-- Witness for claim C5: a concrete sticking player keeps its vertical
velocity through an update with no platforms. -/
theorem sticking_update_preserves_vy_witness :
    ({ Player.init 0 0 with
        magnetic_state := MagState.sticking } : Player).magnetic_state =
      MagState.sticking ∧
    (({ Player.init 0 0 with
        magnetic_state := MagState.sticking } : Player).update []).velocity_y =
      ({ Player.init 0 0 with
        magnetic_state := MagState.sticking } : Player).velocity_y :=
  ⟨rfl, sticking_update_preserves_vy _ rfl⟩

/-- Claim C6: in the Normal state, jump succeeds exactly when on-ground
or under the jump budget, setting the upward impulse, clearing
on_ground and incrementing the count, and otherwise fails without any
state change; from the ground with a fresh budget of two, three jumps
in a row return true, true, false. -/
theorem jump_budget :
    (∀ q : Player, q.magnetic_state = MagState.normal →
      ((q.on_ground = true ∨ q.jump_count < q.max_jumps →
        q.jump = (true,
          { q with
            velocity_y := -PLAYER_JUMP_STRENGTH
            on_ground := false
            jump_count := q.jump_count + 1 })) ∧
       (¬(q.on_ground = true ∨ q.jump_count < q.max_jumps) →
        q.jump = (false, q)))) ∧
    (∀ p : Player, p.magnetic_state = MagState.normal → p.on_ground = true →
      p.jump_count = 0 → p.max_jumps = 2 →
      p.jump.1 = true ∧ (p.jump.2).jump.1 = true ∧
      ((p.jump.2).jump.2).jump.1 = false) := by
  constructor
  · intro q hq
    constructor
    · intro hcond
      simp [Player.jump, hq, hcond]
    · intro hcond
      simp [Player.jump, hq, hcond]
  · intro p h1 h2 h3 h4
    simp [Player.jump, h1, h2, h3, h4]

/-- Witness for claim C6: a fresh player placed on the ground gets
true, true, false from three consecutive jumps. -/
theorem jump_budget_witness :
    (({ Player.init 0 0 with on_ground := true } : Player).jump).1 = true ∧
    ((({ Player.init 0 0 with on_ground := true } : Player).jump.2).jump).1 =
      true ∧
    (((({ Player.init 0 0 with
        on_ground := true } : Player).jump.2).jump.2).jump).1 = false :=
  jump_budget.2 { Player.init 0 0 with on_ground := true } rfl rfl rfl rfl

/-- Distinctness of the magnetic states, as a rewrite fact. -/
theorem magState_ns : (MagState.normal = MagState.sticking) = False :=
  eq_false (by decide)

/-- Detaching always restores the invariant. -/
theorem playerInv_detach (p : Player) : PlayerInv p.detach_from_surface := by
  simp [PlayerInv, Player.detach_from_surface]

/-- A fresh player satisfies the invariant. -/
theorem playerInv_init (x y : ℚ) : PlayerInv (Player.init x y) := by
  simp [PlayerInv, Player.init]

/-- Movement input preserves the invariant. -/
theorem playerInv_move (p : Player) (h : PlayerInv p) (a b : ℚ) :
    PlayerInv (p.move a b) := by
  simp only [Player.move]
  split_ifs <;> exact h

/-- Jumping preserves the invariant. -/
theorem playerInv_jump (p : Player) (h : PlayerInv p) : PlayerInv p.jump.2 := by
  simp only [Player.jump]
  split_ifs with h1 h2
  · simp [PlayerInv, Player.detach_from_surface]
  · exact h
  · exact h

/-- Toggling the boots preserves the invariant. -/
theorem playerInv_toggle (p : Player) (h : PlayerInv p) :
    PlayerInv p.toggle_magnetic_state := by
  simp only [Player.toggle_magnetic_state]
  split_ifs with hc
  · exact playerInv_detach _
  · refine ⟨h.1, fun hb => ?_⟩
    show p.magnetic_state = MagState.normal
    rcases hms : p.magnetic_state with _ | _
    · rfl
    · exact absurd ⟨hb, hms⟩ hc

/-- External magnetic forces preserve the invariant. -/
theorem playerInv_force (p : Player) (h : PlayerInv p) (f : ℚ × ℚ) :
    PlayerInv (p.apply_magnetic_force f) := by
  simp only [Player.apply_magnetic_force]
  split_ifs <;> exact h

/-- Resetting the player restores the invariant. -/
theorem playerInv_player_reset (p : Player) (x y : ℚ) :
    PlayerInv (p.reset x y) := by
  simp [PlayerInv, Player.reset]

/-- Sticking to a surface preserves the invariant: the guard refuses the
attach when the boots are off, and a successful attach records the
platform. -/
theorem playerInv_stick (p : Player) (plat : Platform) (side : Orientation)
    (h : PlayerInv p) : PlayerInv (p.stick_to_surface plat side) := by
  unfold Player.stick_to_surface
  split_ifs with hguard
  · exact h
  · constructor
    · intro hx
      simp
    · intro hb
      simp only [Bool.or_eq_true, Bool.not_eq_true'] at hguard
      push_neg at hguard
      exact absurd hb hguard.1

/-- Resolving one platform of the collision loop preserves the
invariant. -/
theorem playerInv_handle (p : Player) (plat : Platform) (h : PlayerInv p) :
    PlayerInv (p.handle_platform plat) := by
  unfold Player.handle_platform
  split_ifs with hcol
  · dsimp only
    rcases hr : (resolve_collision p.rect plat.rect
        (p.velocity_x, p.velocity_y)).2.2 with _ | side
    · exact h
    · dsimp only
      split_ifs with hmag hfloor
      · exact playerInv_stick _ _ _ h
      · exact h
      · exact h
  · exact h

/-- The whole collision loop preserves the invariant. -/
theorem playerInv_foldl (l : List Platform) (p : Player) (h : PlayerInv p) :
    PlayerInv (l.foldl Player.handle_platform p) := by
  induction l generalizing p with
  | nil => simpa using h
  | cons a t ih => exact ih _ (playerInv_handle _ _ h)

/-- The per-tick contact check preserves the invariant. -/
theorem playerInv_contact (p : Player) (h : PlayerInv p) :
    PlayerInv p.contact_check := by
  unfold Player.contact_check
  split_ifs with h1
  · cases hs : p.current_surface with
    | none => exact h
    | some s =>
        dsimp only
        split_ifs
        · exact playerInv_detach _
        · exact h
  · exact h

/-- Gravity preserves the invariant. -/
theorem playerInv_gravity (p : Player) (h : PlayerInv p) :
    PlayerInv p.applyGravity := by
  unfold Player.applyGravity
  split_ifs <;> exact h

/-- Friction preserves the invariant. -/
theorem playerInv_friction (p : Player) (h : PlayerInv p) :
    PlayerInv p.applyFriction := h

/-- Position integration preserves the invariant. -/
theorem playerInv_integrate (p : Player) (h : PlayerInv p) :
    PlayerInv p.integrate := h

/-- The ground reset preserves the invariant. -/
theorem playerInv_reset_ground (p : Player) (h : PlayerInv p) :
    PlayerInv p.reset_ground := by
  unfold Player.reset_ground
  split_ifs <;> exact h

/-- A whole tick preserves the invariant. -/
theorem playerInv_update (p : Player) (platforms : List Platform)
    (h : PlayerInv p) : PlayerInv (p.update platforms) := by
  unfold Player.update
  exact playerInv_contact _ (playerInv_foldl _ _ (playerInv_reset_ground _
    (playerInv_integrate _ (playerInv_friction _ (playerInv_gravity _ h)))))

/-- Claim C2 (amended): every state reachable by the public operations
keeps a non-null current_surface while Sticking, and keeps the state
Normal while the boots are off.  The recorded orientation is the
collision side of the attach and need not equal the surface's declared
orientation attribute. -/
theorem player_reachable_invariant (p : Player) (h : Reachable p) :
    PlayerInv p := by
  induction h with
  | init x y => exact playerInv_init x y
  | move a b hp ih => exact playerInv_move _ ih a b
  | jump hp ih => exact playerInv_jump _ ih
  | toggle hp ih => exact playerInv_toggle _ ih
  | force f hp ih => exact playerInv_force _ ih f
  | update platforms hp ih => exact playerInv_update _ platforms ih
  | reset x y hp ih => exact playerInv_player_reset _ x y

/-- Witness for claim C2 (amended): the invariant at the initial
state. -/
theorem player_reachable_invariant_witness : PlayerInv (Player.init 0 0) :=
  player_reachable_invariant _ (Reachable.init 0 0)

/-- Counterexample to claim C2 as stated: a reachable state is Sticking
on bad_platform with recorded orientation WallRight, while the
platform's declared sticky orientation is WallLeft, so the
"current_orientation equals the surface orientation" part of the claim
fails on the code. -/
theorem stick_orientation_mismatch :
    Reachable bad_player ∧
    bad_player.magnetic_state = MagState.sticking ∧
    bad_player.current_surface = some bad_platform ∧
    bad_player.current_orientation ≠ bad_platform.orientation := by
  have h1 : (Player.init 0 0).apply_magnetic_force (10, 0) =
      { x := 0, y := 0, width := 32, height := 48, velocity_x := 10,
        velocity_y := 0, magnetic_state := MagState.normal,
        current_surface := none, current_orientation := Orientation.floor,
        on_ground := false, facing_right := true, boots_active := true,
        jump_count := 0, max_jumps := 2 } := by
    norm_num [Player.apply_magnetic_force, Player.init, PLAYER_WIDTH,
      PLAYER_HEIGHT, magState_ns]
  have h2 : ((Player.init 0 0).apply_magnetic_force
      (10, 0)).applyGravity.applyFriction.integrate.reset_ground =
      { x := 19/2, y := 4/5, width := 32, height := 48, velocity_x := 19/2,
        velocity_y := 4/5, magnetic_state := MagState.normal,
        current_surface := none, current_orientation := Orientation.floor,
        on_ground := false, facing_right := true, boots_active := true,
        jump_count := 0, max_jumps := 2 } := by
    rw [h1]
    norm_num [Player.applyGravity, apply_gravity, Player.applyFriction,
      apply_friction, Player.integrate, Player.reset_ground, GRAVITY,
      MAX_FALL_SPEED, FRICTION, AIR_RESISTANCE, min_def, magState_ns]
  have h3 : Player.handle_platform
      { x := 19/2, y := 4/5, width := 32, height := 48, velocity_x := 19/2,
        velocity_y := 4/5, magnetic_state := MagState.normal,
        current_surface := none, current_orientation := Orientation.floor,
        on_ground := false, facing_right := true, boots_active := true,
        jump_count := 0, max_jumps := 2 } bad_platform =
      { x := 8, y := 4/5, width := 32, height := 48, velocity_x := 0,
        velocity_y := 0, magnetic_state := MagState.sticking,
        current_surface := some bad_platform,
        current_orientation := Orientation.wallRight, on_ground := true,
        facing_right := true, boots_active := true, jump_count := 0,
        max_jumps := 2 } := by
    norm_num [Player.handle_platform, Player.rect, Platform.rect,
      bad_platform, check_rect_collision, resolve_collision,
      Player.stick_to_surface, min_def, magState_ns]
  have h4 : Player.contact_check
      { x := 8, y := 4/5, width := 32, height := 48, velocity_x := 0,
        velocity_y := 0, magnetic_state := MagState.sticking,
        current_surface := some bad_platform,
        current_orientation := Orientation.wallRight, on_ground := true,
        facing_right := true, boots_active := true, jump_count := 0,
        max_jumps := 2 } =
      { x := 8, y := 4/5, width := 32, height := 48, velocity_x := 0,
        velocity_y := 0, magnetic_state := MagState.sticking,
        current_surface := some bad_platform,
        current_orientation := Orientation.wallRight, on_ground := true,
        facing_right := true, boots_active := true, jump_count := 0,
        max_jumps := 2 } := by
    norm_num [Player.contact_check, Platform.is_player_on_surface,
      bad_platform, Player.rect, magState_ns]
  have h5 : bad_player =
      { x := 8, y := 4/5, width := 32, height := 48, velocity_x := 0,
        velocity_y := 0, magnetic_state := MagState.sticking,
        current_surface := some bad_platform,
        current_orientation := Orientation.wallRight, on_ground := true,
        facing_right := true, boots_active := true, jump_count := 0,
        max_jumps := 2 } := by
    unfold bad_player Player.update
    rw [List.foldl_cons, List.foldl_nil, h2, h3, h4]
  refine ⟨Reachable.update [bad_platform]
    (Reachable.force (10, 0) (Reachable.init 0 0)), ?_, ?_, ?_⟩
  · rw [h5]
  · rw [h5]
  · rw [h5]
    decide

end MagnetBoots
